import Mathlib

/-!
Verification of the KYLLM-AgentChatUI Thread view and LLM-visualization tool.

The embedding below translates the submit/regenerate/error-handling logic of
`Thread` (src/unnamed/part_000) and `LLMVizTool`
(src/src/components/thread/tools/llm-visualizer.tsx) into Lean.  UI event
handlers become pure functions from the lifted component state plus the
external stream state to a result record that captures the post state, the
(at most one) call to `stream.submit`, and the error toasts raised.  The
fresh random UUID produced by `uuidv4()` is a parameter of each handler.
-/

namespace AgentChatUI

/-- Message kinds of the `@langchain/langgraph-sdk` messages as the Thread
view distinguishes them: human, assistant (`"ai"`) and tool-response
messages. -/
inductive MsgType where
  | human
  | ai
  | tool
  deriving DecidableEq, Repr

/-- A chat message.  `toolCallIds` are the ids of the tool calls carried by
an assistant message; `toolCallId` is, on a tool message, the id of the call
it responds to. -/
structure Message where
  id : Option String
  type : MsgType
  content : String
  toolCallIds : List String
  toolCallId : Option String
  deriving DecidableEq, Repr

/-- The stream context's `error` value; its `message` field may be absent. -/
structure StreamError where
  message : Option String
  deriving DecidableEq, Repr

/-- The slice of the external stream context read by the handlers. -/
structure StreamState where
  messages : List Message
  isLoading : Bool
  deriving Repr

/-- Opaque backend checkpoint marker passed to `handleRegenerate`. -/
structure Checkpoint where
  cid : String
  deriving DecidableEq, Repr

/-- The lifted Thread-view state touched by the submit handlers: the free-text
composer `input`, the `firstTokenReceived` flag and the four lifted fields of
the LLM-visualization tool. -/
structure ThreadState where
  input : String
  firstTokenReceived : Bool
  llmVizModel : Option String
  llmVizLayer : Option String
  llmVizHead : Option String
  llmVizControlText : String
  deriving Repr

/-- One call to `stream.submit` from `handleSubmit` / `handleControlSubmit`:
the `messages` field of the submitted partial state, the stream mode, the
checkpoint option, and the `optimisticValues` projection on the previous
message list (`none` stands for an undefined `prev` / `prev.messages`). -/
structure SubmitCall where
  messages : List Message
  streamMode : List String
  checkpoint : Option Checkpoint
  optimistic : Option (List Message) → List Message

/-- Result of running a submit handler: the post component state, the call to
`stream.submit` if one was made, and the error-toast messages shown. -/
structure HandlerResult where
  state : ThreadState
  submitted : Option SubmitCall
  toasts : List String

/-- `true` on assistant messages (`m.type === "ai"`). -/
def isAi (m : Message) : Bool :=
  match m.type with
  | .ai => true
  | _ => false

/-- `true` on tool-response messages. -/
def isTool (m : Message) : Bool :=
  match m.type with
  | .tool => true
  | _ => false

/-- Does `msgs` contain a tool message responding to the call id `cid`? -/
def hasResponse (msgs : List Message) (cid : String) : Bool :=
  msgs.any fun r => isTool r && decide (r.toolCallId = some cid)

/-- All tool-call ids carried by assistant messages of `msgs`. -/
def toolCallIdsOf (msgs : List Message) : List String :=
  (msgs.filter isAi).flatMap Message.toolCallIds

/-- The tool-call ids of `msgs` that have no matching tool response. -/
def unansweredIds (msgs : List Message) : List String :=
  (toolCallIdsOf msgs).filter fun cid => !hasResponse msgs cid

/-- Modelled from the spec: the synthetic placeholder response that the
tool-call reconciliation helper inserts for an unanswered tool call
(the helper lives in `src/lib/ensure-tool-responses`, which is not part of
the provided sources). -/
def mkToolResponse (cid : String) : Message :=
  { id := none
    type := .tool
    content := "placeholder"
    toolCallIds := []
    toolCallId := some cid }

/-- Modelled from the spec: `ensureToolCallsHaveResponses` from
`src/lib/ensure-tool-responses` (not in the provided sources).  Per the spec,
given the current message list it returns a list with synthetic placeholder
responses inserted for any tool call lacking one, guaranteeing the backend
never receives an unanswered tool call. -/
def ensureToolCallsHaveResponses (msgs : List Message) : List Message :=
  msgs ++ (unansweredIds msgs).map mkToolResponse

/-- The outgoing human message `{ id: uuidv4(), type: "human", content }`. -/
def newHumanMessage (content freshId : String) : Message :=
  { id := some freshId
    type := .human
    content := content
    toolCallIds := []
    toolCallId := none }

/-- JavaScript falsiness of a `string | undefined` value: `undefined` and the
empty string are falsy. -/
def strFalsy (o : Option String) : Bool :=
  decide (o.getD "" = "")

/-- The JavaScript whitespace characters stripped by `String.prototype.trim`
(ASCII whitespace plus no-break space and BOM). -/
def isJsWs (c : Char) : Bool :=
  c = ' ' || c = '\t' || c = '\n' || c = '\x0b' || c = '\x0c' || c = '\x0d' ||
    c = '\u00a0' || c = '\ufeff'

/-- `String.prototype.trim`: strip leading and trailing whitespace. -/
def jsTrim (s : String) : String :=
  String.mk (((s.toList.dropWhile isJsWs).reverse.dropWhile isJsWs).reverse)

/-- Lowercase hexadecimal digit, as emitted by `JSON.stringify`. -/
def hexDigit (n : Nat) : Char :=
  if n < 10 then Char.ofNat (48 + n) else Char.ofNat (87 + n)

/-- Four-digit hexadecimal rendering used in `\u00XX` escapes. -/
def hex4 (n : Nat) : String :=
  String.mk [hexDigit (n / 4096 % 16), hexDigit (n / 256 % 16),
    hexDigit (n / 16 % 16), hexDigit (n % 16)]

/-- Escaping of one character inside a JSON string literal, following the
`JSON.stringify` quoting rules for well-formed strings. -/
def jsonEscapeChar (c : Char) : String :=
  if c = '"' then "\\\""
  else if c = '\\' then "\\\\"
  else if c = '\x08' then "\\b"
  else if c = '\x09' then "\\t"
  else if c = '\x0a' then "\\n"
  else if c = '\x0c' then "\\f"
  else if c = '\x0d' then "\\r"
  else if c.toNat < 32 then "\\u" ++ hex4 c.toNat
  else String.singleton c

/-- A JSON string literal for `s`, as produced by `JSON.stringify`. -/
def jsonQuote (s : String) : String :=
  "\"" ++ String.join (s.toList.map jsonEscapeChar) ++ "\""

/-- `JSON.stringify({tool: "llm_visualization", model, layer, head, text})`:
the object literal is serialized with its keys in source order. -/
def vizPayload (model layer head text : String) : String :=
  "\x7b\"tool\":\"llm_visualization\",\"model\":" ++ jsonQuote model ++
    ",\"layer\":" ++ jsonQuote layer ++
    ",\"head\":" ++ jsonQuote head ++
    ",\"text\":" ++ jsonQuote text ++ "\x7d"

/-- The toast text of `LLMVizTool.handleControlSubmit`'s validation failure. -/
def vizToastMsg : String :=
  "Please fill in all fields for the LLM Visualization tool."

/-- `Thread.handleSubmit` (src/unnamed/part_000, lines 352-380): guard on
empty trimmed input or loading; otherwise reset the first-token flag, build a
fresh human message from the composer input, reconcile tool calls, submit the
combined list with an optimistic append projection, and clear the input. -/
def handleSubmit (s : ThreadState) (stream : StreamState) (freshId : String) :
    HandlerResult :=
  if jsTrim s.input = "" ∨ stream.isLoading = true then
    { state := s, submitted := none, toasts := [] }
  else
    let msg := newHumanMessage s.input freshId
    let toolMessages := ensureToolCallsHaveResponses stream.messages
    { state := { s with firstTokenReceived := false, input := "" }
      submitted := some
        { messages := toolMessages ++ [msg]
          streamMode := ["values"]
          checkpoint := none
          optimistic := fun prev => prev.getD [] ++ toolMessages ++ [msg] }
      toasts := [] }

/-- `LLMVizTool.handleControlSubmit`
(src/src/components/thread/tools/llm-visualizer.tsx, lines 58-98, duplicated
inline in src/unnamed/part_000, lines 131-171): early-return while loading;
then reset the first-token flag; then validate model/layer/head/trimmed text,
toasting and aborting on failure; on success serialize the payload, build a
fresh human message, reconcile tool calls and submit with the optimistic
append projection. -/
def handleControlSubmit (s : ThreadState) (stream : StreamState)
    (freshId : String) : HandlerResult :=
  if stream.isLoading = true then
    { state := s, submitted := none, toasts := [] }
  else
    let s1 := { s with firstTokenReceived := false }
    if strFalsy s.llmVizModel ∨ strFalsy s.llmVizLayer ∨
        strFalsy s.llmVizHead ∨ jsTrim s.llmVizControlText = "" then
      { state := s1, submitted := none, toasts := [vizToastMsg] }
    else
      let content := vizPayload (s.llmVizModel.getD "") (s.llmVizLayer.getD "")
        (s.llmVizHead.getD "") s.llmVizControlText
      let msg := newHumanMessage content freshId
      let toolMessages := ensureToolCallsHaveResponses stream.messages
      { state := s1
        submitted := some
          { messages := toolMessages ++ [msg]
            streamMode := ["values"]
            checkpoint := none
            optimistic := fun prev => prev.getD [] ++ toolMessages ++ [msg] }
        toasts := [] }

/-- `Array.prototype.findLastIndex`, returning `none` for `-1`. -/
def findLastIdx {α : Type} (p : α → Bool) : List α → Option Nat
  | [] => none
  | a :: as =>
    match findLastIdx p as with
    | some j => some (j + 1)
    | none => if p a then some 0 else none

/-- One call to `stream.submit` from `handleRegenerate`: the first argument
is `undefined`, so only the options matter — the checkpoint, stream mode and
the optimistic truncation projection. -/
structure RegenSubmit where
  checkpoint : Option Checkpoint
  streamMode : List String
  optimistic : Option (List Message) → List Message

/-- Result of `handleRegenerate`: the `prevMessageLength` ref value, the
first-token flag and the submit call if one was made. -/
structure RegenResult where
  prevMessageLength : Nat
  firstTokenReceived : Bool
  submitted : Option RegenSubmit

/-- `Thread.handleRegenerate` (src/unnamed/part_000, lines 384-406): guard
`!messages?.length` (treating an undefined list as empty); find the last
assistant message, returning if there is none; decrement the
`prevMessageLength` ref (floored at 0); reset the first-token flag; submit
from the supplied checkpoint with an optimistic projection slicing the
previous list to just before the last assistant message.  `isLoading` is in
scope in the component but the handler never consults it. -/
def handleRegenerate (messages : Option (List Message)) (isLoading : Bool)
    (prevLen : Nat) (ftr : Bool) (cp : Option Checkpoint) : RegenResult :=
  match messages with
  | none =>
    { prevMessageLength := prevLen, firstTokenReceived := ftr,
      submitted := none }
  | some ms =>
    if ms.length = 0 then
      { prevMessageLength := prevLen, firstTokenReceived := ftr,
        submitted := none }
    else
      match findLastIdx isAi ms with
      | none =>
        { prevMessageLength := prevLen, firstTokenReceived := ftr,
          submitted := none }
      | some idx =>
        { prevMessageLength := prevLen - 1
          firstTokenReceived := false
          submitted := some
            { checkpoint := cp
              streamMode := ["values"]
              optimistic := fun prev => (prev.map fun l => l.take idx).getD [] } }

/-- One run of the error-surfacing effect (src/unnamed/part_000, lines
312-335) on the `lastError` ref: returns the new ref value and whether a
toast was raised.  `err = none` is a cleared error; an error's `message`
field may itself be absent, and a falsy (absent or empty) message, or one
equal to the ref, raises nothing. -/
def errorStep (last : Option String) (err : Option StreamError) :
    Option String × Bool :=
  match err with
  | none => (none, false)
  | some e =>
    match e.message with
    | none => (last, false)
    | some m => if m = "" ∨ last = some m then (last, false) else (some m, true)

/-- Folding `errorStep` over a sequence of error updates, counting toasts. -/
def errorTrace : Option String → List (Option StreamError) → Option String × Nat
  | last, [] => (last, 0)
  | last, e :: es =>
    let r := errorStep last e
    let rest := errorTrace r.1 es
    (rest.1, (if r.2 then 1 else 0) + rest.2)

/-- One run of the first-token-detection effect (src/unnamed/part_000, lines
338-347).  The effect reads `messages.length` without a guard, so an
undefined message list makes it throw (`Except.error`); otherwise it returns
the new `prevMessageLength` ref value and first-token flag. -/
def firstTokenEffect (prevLen : Nat) (ftr : Bool)
    (messages : Option (List Message)) : Except String (Nat × Bool) :=
  match messages with
  | none => .error "TypeError"
  | some ms =>
    let cond := decide (ms.length ≠ prevLen) && decide (ms.length ≠ 0) &&
      (match ms.getLast? with
       | some m => isAi m
       | none => false)
    .ok (ms.length, if cond then true else ftr)

/-- `chatStarted = !!threadId || !!messages.length` (src/unnamed/part_000,
line 410): short-circuits on a truthy thread id, otherwise reads
`messages.length` without a guard and throws on an undefined list. -/
def chatStarted (threadId : Option String) (messages : Option (List Message)) :
    Except String Bool :=
  if strFalsy threadId then
    match messages with
    | none => .error "TypeError"
    | some ms => .ok (decide (ms.length ≠ 0))
  else
    .ok true

/-- Every tool call carried by an assistant message of `msgs` has a matching
tool-response message in `msgs`. -/
def noUnansweredToolCalls (msgs : List Message) : Prop :=
  ∀ m ∈ msgs, m.type = .ai → ∀ cid ∈ m.toolCallIds,
    ∃ r ∈ msgs, r.type = .tool ∧ r.toolCallId = some cid

/-- Fixtures used to instantiate the claim theorems. -/
def streamIdle : StreamState :=
  { messages := [], isLoading := false }

def aiMsgTC : Message :=
  { id := some "a1", type := .ai, content := "calling",
    toolCallIds := ["call-1"], toolCallId := none }

def streamTC : StreamState :=
  { messages := [aiMsgTC], isLoading := false }

def sC1 : ThreadState :=
  { input := "hello", firstTokenReceived := true,
    llmVizModel := some "gpt2", llmVizLayer := some "3",
    llmVizHead := some "5", llmVizControlText := "The quick brown fox." }

def sNoModel : ThreadState :=
  { input := "", firstTokenReceived := true, llmVizModel := none,
    llmVizLayer := some "1", llmVizHead := some "1",
    llmVizControlText := "text" }

def sC3 : ThreadState :=
  { input := "  hi  ", firstTokenReceived := true,
    llmVizModel := some "gpt2", llmVizLayer := some "1",
    llmVizHead := some "1", llmVizControlText := "" }

def sEmptyInput : ThreadState :=
  { input := "   ", firstTokenReceived := true, llmVizModel := some "gpt2",
    llmVizLayer := some "1", llmVizHead := some "1",
    llmVizControlText := "" }

def streamBusy : StreamState :=
  { messages := [], isLoading := true }

def sC10 : ThreadState :=
  { input := "x", firstTokenReceived := true, llmVizModel := some "gpt2",
    llmVizLayer := some "2", llmVizHead := some "7",
    llmVizControlText := "abc" }

def aiMsg1 : Message :=
  { id := some "a2", type := .ai, content := "answer", toolCallIds := [],
    toolCallId := none }

def sC8 : ThreadState :=
  { input := "", firstTokenReceived := false, llmVizModel := some "gpt2",
    llmVizLayer := some "3", llmVizHead := some "5",
    llmVizControlText := "hi" }

/-- The `stream.submit` options record that `handleRegenerate` builds once
the last assistant message sits at index `idx`. -/
def regenSubmitCall (idx : Nat) (cp : Option Checkpoint) : RegenSubmit :=
  { checkpoint := cp
    streamMode := ["values"]
    optimistic := fun prev => (prev.map fun l => l.take idx).getD [] }

def humanMsg1 : Message :=
  { id := some "h1", type := .human, content := "hi", toolCallIds := [],
    toolCallId := none }

def humanMsg2 : Message :=
  { id := some "h2", type := .human, content := "again", toolCallIds := [],
    toolCallId := none }

def msgsRegen : List Message := [humanMsg1, aiMsg1, humanMsg2]

def cpW : Checkpoint := { cid := "ckpt-1" }

lemma isAi_iff (m : Message) : isAi m = true ↔ m.type = .ai := by
  unfold isAi
  cases h : m.type <;> simp [h]

lemma isAi_eq_false (m : Message) : isAi m = false ↔ m.type ≠ .ai := by
  rw [ne_eq, ← isAi_iff]
  cases isAi m <;> simp

lemma isTool_iff (m : Message) : isTool m = true ↔ m.type = .tool := by
  unfold isTool
  cases h : m.type <;> simp [h]

lemma hasResponse_iff (msgs : List Message) (cid : String) :
    hasResponse msgs cid = true ↔
      ∃ r ∈ msgs, r.type = .tool ∧ r.toolCallId = some cid := by
  unfold hasResponse
  simp [List.any_eq_true, isTool_iff]

lemma mem_toolCallIdsOf (msgs : List Message) (cid : String) :
    cid ∈ toolCallIdsOf msgs ↔
      ∃ m ∈ msgs, m.type = .ai ∧ cid ∈ m.toolCallIds := by
  unfold toolCallIdsOf
  simp only [List.mem_flatMap, List.mem_filter, isAi_iff]
  constructor
  · rintro ⟨m, ⟨hm, hty⟩, hc⟩
    exact ⟨m, hm, hty, hc⟩
  · rintro ⟨m, hm, hty, hc⟩
    exact ⟨m, ⟨hm, hty⟩, hc⟩

/-- The reconciled list, extended only with messages carrying no tool calls,
has every tool call answered. -/
lemma ensure_append_noUnanswered (msgs tail : List Message)
    (htail : ∀ m ∈ tail, m.toolCallIds = []) :
    noUnansweredToolCalls (ensureToolCallsHaveResponses msgs ++ tail) := by
  intro m hm hai cid hcid
  unfold ensureToolCallsHaveResponses at hm ⊢
  rcases List.mem_append.mp hm with hm' | hm'
  · rcases List.mem_append.mp hm' with hmsg | hph
    · by_cases hr : hasResponse msgs cid = true
      · obtain ⟨r, hrmem, hrt, hrc⟩ := (hasResponse_iff msgs cid).mp hr
        refine ⟨r, ?_, hrt, hrc⟩
        exact List.mem_append.mpr (Or.inl (List.mem_append.mpr (Or.inl hrmem)))
      · have h1 : cid ∈ toolCallIdsOf msgs :=
          (mem_toolCallIdsOf msgs cid).mpr ⟨m, hmsg, hai, hcid⟩
        have hr' : hasResponse msgs cid = false := by
          revert hr
          cases hasResponse msgs cid <;> simp
        have h2 : cid ∈ unansweredIds msgs := by
          unfold unansweredIds
          exact List.mem_filter.mpr ⟨h1, by simp [hr']⟩
        refine ⟨mkToolResponse cid, ?_, rfl, rfl⟩
        refine List.mem_append.mpr (Or.inl (List.mem_append.mpr (Or.inr ?_)))
        exact List.mem_map.mpr ⟨cid, h2, rfl⟩
    · obtain ⟨cid', _, hph'⟩ := List.mem_map.mp hph
      rw [← hph'] at hai
      simp [mkToolResponse] at hai
  · have h0 := htail m hm'
    rw [h0] at hcid
    exact absurd hcid (List.not_mem_nil cid)

/-- C1: for every submission of the composer (`handleSubmit`) or the
visualization tool (`handleControlSubmit`), the message list handed to
`stream.submit` is exactly `ensureToolCallsHaveResponses` applied to the
current `stream.messages` followed by the single new human message, and —
under the reconciliation helper's contract (here modelled from the spec) —
that list contains no tool call lacking a matching response. -/
theorem submit_reconciles_tool_calls (s : ThreadState) (stream : StreamState)
    (freshId : String) :
    (stream.isLoading = false → jsTrim s.input ≠ "" →
      ∃ sc, (handleSubmit s stream freshId).submitted = some sc ∧
        sc.messages = ensureToolCallsHaveResponses stream.messages ++
          [newHumanMessage s.input freshId] ∧
        noUnansweredToolCalls sc.messages) ∧
    (stream.isLoading = false → strFalsy s.llmVizModel = false →
      strFalsy s.llmVizLayer = false → strFalsy s.llmVizHead = false →
      jsTrim s.llmVizControlText ≠ "" →
      ∃ sc, (handleControlSubmit s stream freshId).submitted = some sc ∧
        sc.messages = ensureToolCallsHaveResponses stream.messages ++
          [newHumanMessage
            (vizPayload (s.llmVizModel.getD "") (s.llmVizLayer.getD "")
              (s.llmVizHead.getD "") s.llmVizControlText) freshId] ∧
        noUnansweredToolCalls sc.messages) := by
  constructor
  · intro hload hinput
    unfold handleSubmit
    rw [if_neg (by simp [hinput, hload])]
    refine ⟨_, rfl, rfl, ensure_append_noUnanswered _ _ ?_⟩
    intro m hm
    rw [List.mem_singleton] at hm
    rw [hm]
    rfl
  · intro hload hm hl hh ht
    unfold handleControlSubmit
    rw [if_neg (by simp [hload])]
    rw [if_neg (by simp [hm, hl, hh, ht])]
    refine ⟨_, rfl, rfl, ensure_append_noUnanswered _ _ ?_⟩
    intro m hmm
    rw [List.mem_singleton] at hmm
    rw [hmm]
    rfl

/-- Witness for C1 at a concrete state whose stream holds an assistant
message carrying an unanswered tool call. -/
theorem submit_reconciles_tool_calls_witness :
    streamTC.isLoading = false ∧ jsTrim sC1.input ≠ "" ∧
    (∃ sc, (handleSubmit sC1 streamTC "u-1").submitted = some sc ∧
      sc.messages = ensureToolCallsHaveResponses streamTC.messages ++
        [newHumanMessage sC1.input "u-1"] ∧
      noUnansweredToolCalls sc.messages) :=
  ⟨rfl, by decide, (submit_reconciles_tool_calls sC1 streamTC "u-1").1 rfl
    (by decide)⟩

/-- C2: invoking the visualization tool's submit handler while not loading
with model, layer or head unset, or with control text empty after trimming,
shows the error toast and never calls `stream.submit`.  The handler is a
total function of the embedding, so no exception reaches the caller. -/
theorem controlSubmit_invalid_no_submit (s : ThreadState)
    (stream : StreamState) (freshId : String) :
    stream.isLoading = false →
    (strFalsy s.llmVizModel = true ∨ strFalsy s.llmVizLayer = true ∨
      strFalsy s.llmVizHead = true ∨ jsTrim s.llmVizControlText = "") →
    (handleControlSubmit s stream freshId).toasts = [vizToastMsg] ∧
    (handleControlSubmit s stream freshId).submitted = none := by
  intro h1 h2
  unfold handleControlSubmit
  rw [if_neg (by simp [h1])]
  rw [if_pos (by rcases h2 with h | h | h | h <;> simp [h])]
  exact ⟨rfl, rfl⟩

/-- Witness for C2: submitting with no model selected toasts and does not
submit. -/
theorem controlSubmit_invalid_no_submit_witness :
    streamIdle.isLoading = false ∧ strFalsy sNoModel.llmVizModel = true ∧
    (handleControlSubmit sNoModel streamIdle "u-2").toasts = [vizToastMsg] ∧
    (handleControlSubmit sNoModel streamIdle "u-2").submitted = none := by
  have h := controlSubmit_invalid_no_submit sNoModel streamIdle "u-2" rfl
    (Or.inl (by decide))
  exact ⟨rfl, by decide, h.1, h.2⟩

/-- C3: `handleSubmit` is a strict no-op (input untouched, nothing
submitted) when the trimmed input is empty or a submission is in flight;
otherwise it submits the reconciled list plus a fresh human message carrying
the composer input and the fresh UUID, its optimistic projection appends
them to the previous messages, the input is cleared and the first-token
flag is reset. -/
theorem handleSubmit_spec (s : ThreadState) (stream : StreamState)
    (freshId : String) :
    ((jsTrim s.input = "" ∨ stream.isLoading = true) →
      handleSubmit s stream freshId = ⟨s, none, []⟩) ∧
    (jsTrim s.input ≠ "" → stream.isLoading = false →
      ∃ sc, (handleSubmit s stream freshId).submitted = some sc ∧
        sc.messages = ensureToolCallsHaveResponses stream.messages ++
          [newHumanMessage s.input freshId] ∧
        (newHumanMessage s.input freshId).id = some freshId ∧
        (∀ prev, sc.optimistic prev =
          prev.getD [] ++ ensureToolCallsHaveResponses stream.messages ++
            [newHumanMessage s.input freshId]) ∧
        (handleSubmit s stream freshId).state =
          { s with firstTokenReceived := false, input := "" } ∧
        (handleSubmit s stream freshId).toasts = []) := by
  constructor
  · intro h
    unfold handleSubmit
    rw [if_pos h]
  · intro h1 h2
    unfold handleSubmit
    rw [if_neg (by simp [h1, h2])]
    exact ⟨_, rfl, rfl, rfl, fun prev => rfl, rfl, rfl⟩

/-- Witness for C3: whitespace-only input is a no-op; `"  hi  "` submits. -/
theorem handleSubmit_spec_witness :
    handleSubmit sEmptyInput streamIdle "u-3" = ⟨sEmptyInput, none, []⟩ ∧
    jsTrim sC3.input ≠ "" ∧ streamIdle.isLoading = false ∧
    (∃ sc, (handleSubmit sC3 streamIdle "u-3").submitted = some sc ∧
      sc.messages = ensureToolCallsHaveResponses streamIdle.messages ++
        [newHumanMessage sC3.input "u-3"] ∧
      (newHumanMessage sC3.input "u-3").id = some "u-3" ∧
      (∀ prev, sc.optimistic prev =
        prev.getD [] ++ ensureToolCallsHaveResponses streamIdle.messages ++
          [newHumanMessage sC3.input "u-3"]) ∧
      (handleSubmit sC3 streamIdle "u-3").state =
        { sC3 with firstTokenReceived := false, input := "" } ∧
      (handleSubmit sC3 streamIdle "u-3").toasts = []) :=
  ⟨(handleSubmit_spec sEmptyInput streamIdle "u-3").1 (Or.inl (by decide)),
    by decide, rfl,
    (handleSubmit_spec sC3 streamIdle "u-3").2 (by decide) rfl⟩

/-- C4 counterexample: `handleRegenerate` never consults the loading flag —
invoked while `isLoading` is `true` on a list containing an assistant
message, it still calls `stream.submit`, refuting "every submit-triggering
handler rejects the request by early-returning while loading". -/
theorem regenerate_submits_while_loading :
    (handleRegenerate (some [aiMsg1]) true 3 true none).submitted.isSome =
      true := by
  rfl

/-- C4 amended: while a submission is in flight, `handleSubmit` and the
visualization tool's `handleControlSubmit` early-return without calling
`stream.submit` or touching state; `handleRegenerate`, however, performs no
loading check — its behavior is independent of the loading flag. -/
theorem loading_guard_amended (s : ThreadState) (stream : StreamState)
    (freshId : String) (ms : Option (List Message)) (prevLen : Nat)
    (ftr : Bool) (cp : Option Checkpoint) :
    stream.isLoading = true →
    handleSubmit s stream freshId = ⟨s, none, []⟩ ∧
    handleControlSubmit s stream freshId = ⟨s, none, []⟩ ∧
    handleRegenerate ms true prevLen ftr cp =
      handleRegenerate ms false prevLen ftr cp := by
  intro h
  refine ⟨?_, ?_, rfl⟩
  · unfold handleSubmit
    rw [if_pos (Or.inr h)]
  · unfold handleControlSubmit
    rw [if_pos h]

/-- Witness for the amended C4 at a loading stream. -/
theorem loading_guard_amended_witness :
    streamBusy.isLoading = true ∧
    handleSubmit sC10 streamBusy "u-4" = ⟨sC10, none, []⟩ ∧
    handleControlSubmit sC10 streamBusy "u-4" = ⟨sC10, none, []⟩ ∧
    handleRegenerate (some [aiMsg1]) true 3 true none =
      handleRegenerate (some [aiMsg1]) false 3 true none := by
  have h := loading_guard_amended sC10 streamBusy "u-4" (some [aiMsg1]) 3 true
    none rfl
  exact ⟨rfl, h.1, h.2.1, h.2.2⟩

/-- C10: while a submission is in flight the visualization tool's submit
handler returns immediately: no toast, no submit call, and the component
state — the first-token flag and the four lifted fields included — is
returned unchanged. -/
theorem controlSubmit_noop_while_loading (s : ThreadState)
    (stream : StreamState) (freshId : String) :
    stream.isLoading = true →
    handleControlSubmit s stream freshId = ⟨s, none, []⟩ := by
  intro h
  unfold handleControlSubmit
  rw [if_pos h]

/-- Witness for C10: a loading stream leaves a fully populated tool state
untouched. -/
theorem controlSubmit_noop_while_loading_witness :
    streamBusy.isLoading = true ∧
    handleControlSubmit sC10 streamBusy "u-10" = ⟨sC10, none, []⟩ ∧
    (handleControlSubmit sC10 streamBusy "u-10").state.firstTokenReceived =
      sC10.firstTokenReceived ∧
    (handleControlSubmit sC10 streamBusy "u-10").state.llmVizModel =
      sC10.llmVizModel := by
  have h := controlSubmit_noop_while_loading sC10 streamBusy "u-10" rfl
  exact ⟨rfl, h, by rw [h], by rw [h]⟩

/-- C5: the error-surfacing effect toasts exactly once per new distinct
nonempty error message: a message equal to the last shown one is suppressed,
two consecutive identical messages yield one toast and two different ones
yield two, and clearing the error resets the suppression so the same message
toasts again. -/
theorem error_toast_dedup (m1 m2 : String) (h1 : m1 ≠ "") (h2 : m2 ≠ "") :
    (∀ last, last ≠ some m1 →
      errorStep last (some { message := some m1 }) = (some m1, true)) ∧
    errorStep (some m1) (some { message := some m1 }) = (some m1, false) ∧
    (errorTrace none [some { message := some m1 },
      some { message := some m2 }]).2 = (if m1 = m2 then 1 else 2) ∧
    (errorTrace none [some { message := some m1 }, none,
      some { message := some m1 }]).2 = 2 := by
  refine ⟨?_, ?_, ?_, ?_⟩
  · intro last hl
    show (if m1 = "" ∨ last = some m1 then (last, false) else (some m1, true)) =
      (some m1, true)
    rw [if_neg (not_or.mpr ⟨h1, hl⟩)]
  · show (if m1 = "" ∨ some m1 = some m1 then (some m1, false)
      else (some m1, true)) = (some m1, false)
    rw [if_pos (Or.inr rfl)]
  · by_cases hm : m1 = m2
    · subst hm
      simp [errorTrace, errorStep, h1]
    · simp [errorTrace, errorStep, h1, h2, hm]
  · simp [errorTrace, errorStep, h1]

/-- Witness for C5 with the error messages "boom" and "net". -/
theorem error_toast_dedup_witness :
    ("boom" : String) ≠ "" ∧ ("net" : String) ≠ "" ∧
    (errorTrace none [some { message := some "boom" },
      some { message := some "boom" }]).2 = 1 ∧
    (errorTrace none [some { message := some "boom" },
      some { message := some "net" }]).2 = 2 ∧
    (errorTrace none [some { message := some "boom" }, none,
      some { message := some "boom" }]).2 = 2 := by
  have ha := error_toast_dedup "boom" "boom" (by decide) (by decide)
  have hb := error_toast_dedup "boom" "net" (by decide) (by decide)
  refine ⟨by decide, by decide, ?_, ?_, ha.2.2.2⟩
  · have h := ha.2.2.1
    rw [if_pos rfl] at h
    exact h
  · have h := hb.2.2.1
    rw [if_neg (by decide)] at h
    exact h

/-- C7 counterexample: a validation failure of the visualization-tool submit
handler does change component state — `setFirstTokenReceived(false)` runs
before the validation check, so a first-token flag that was `true` drops to
`false` even though nothing is submitted. -/
theorem controlSubmit_invalid_resets_flag :
    sNoModel.firstTokenReceived = true ∧
    (handleControlSubmit sNoModel streamIdle "u-7").submitted = none ∧
    (handleControlSubmit sNoModel streamIdle "u-7").state.firstTokenReceived =
      false :=
  ⟨rfl, rfl, rfl⟩

/-- C7 amended: on a validation failure while not loading, the submission is
aborted with a toast and the lifted fields and input keep their values, but
the first-token-received flag is unconditionally set to `false` — its reset
precedes validation rather than being success-only. -/
theorem controlSubmit_invalid_amended (s : ThreadState) (stream : StreamState)
    (freshId : String) :
    stream.isLoading = false →
    (strFalsy s.llmVizModel = true ∨ strFalsy s.llmVizLayer = true ∨
      strFalsy s.llmVizHead = true ∨ jsTrim s.llmVizControlText = "") →
    (handleControlSubmit s stream freshId).submitted = none ∧
    (handleControlSubmit s stream freshId).toasts = [vizToastMsg] ∧
    (handleControlSubmit s stream freshId).state =
      { s with firstTokenReceived := false } := by
  intro h1 h2
  unfold handleControlSubmit
  rw [if_neg (by simp [h1])]
  rw [if_pos (by rcases h2 with h | h | h | h <;> simp [h])]
  exact ⟨rfl, rfl, rfl⟩

/-- Witness for the amended C7 at a state with no model selected. -/
theorem controlSubmit_invalid_amended_witness :
    streamIdle.isLoading = false ∧ strFalsy sNoModel.llmVizModel = true ∧
    (handleControlSubmit sNoModel streamIdle "u-7b").submitted = none ∧
    (handleControlSubmit sNoModel streamIdle "u-7b").toasts = [vizToastMsg] ∧
    (handleControlSubmit sNoModel streamIdle "u-7b").state =
      { sNoModel with firstTokenReceived := false } := by
  have h := controlSubmit_invalid_amended sNoModel streamIdle "u-7b" rfl
    (Or.inl (by decide))
  exact ⟨rfl, by decide, h.1, h.2.1, h.2.2⟩

/-- C8: every successful visualization-tool submission carries, as the
content of the outgoing human message, exactly the JSON serialization of
`{tool: "llm_visualization", model, layer, head, text}` with the keys in
that order and the current field values. -/
theorem vizSubmit_payload_shape (s : ThreadState) (stream : StreamState)
    (freshId : String) :
    stream.isLoading = false → strFalsy s.llmVizModel = false →
    strFalsy s.llmVizLayer = false → strFalsy s.llmVizHead = false →
    jsTrim s.llmVizControlText ≠ "" →
    ∃ sc, (handleControlSubmit s stream freshId).submitted = some sc ∧
      sc.messages.getLast? = some (newHumanMessage
        (vizPayload (s.llmVizModel.getD "") (s.llmVizLayer.getD "")
          (s.llmVizHead.getD "") s.llmVizControlText) freshId) := by
  intro h1 hm hl hh ht
  unfold handleControlSubmit
  rw [if_neg (by simp [h1])]
  rw [if_neg (by simp [hm, hl, hh, ht])]
  refine ⟨_, rfl, ?_⟩
  simp

/-- Witness for C8, including the fully evaluated JSON string. -/
theorem vizSubmit_payload_shape_witness :
    streamIdle.isLoading = false ∧ strFalsy sC8.llmVizModel = false ∧
    strFalsy sC8.llmVizLayer = false ∧ strFalsy sC8.llmVizHead = false ∧
    jsTrim sC8.llmVizControlText ≠ "" ∧
    (∃ sc, (handleControlSubmit sC8 streamIdle "u-8").submitted = some sc ∧
      sc.messages.getLast? = some (newHumanMessage
        (vizPayload "gpt2" "3" "5" "hi") "u-8")) ∧
    vizPayload "gpt2" "3" "5" "hi" =
      "\x7b\"tool\":\"llm_visualization\",\"model\":\"gpt2\",\"layer\":\"3\",\"head\":\"5\",\"text\":\"hi\"\x7d" := by
  refine ⟨rfl, by decide, by decide, by decide, by decide, ?_, by decide⟩
  exact vizSubmit_payload_shape sC8 streamIdle "u-8" rfl (by decide)
    (by decide) (by decide) (by decide)

lemma findLastIdx_cons {α : Type} (p : α → Bool) (a : α) (as : List α) :
    findLastIdx p (a :: as) =
      match findLastIdx p as with
      | some j => some (j + 1)
      | none => if p a then some 0 else none := rfl

lemma findLastIdx_none_iff {α : Type} (p : α → Bool) (l : List α) :
    findLastIdx p l = none ↔ ∀ a ∈ l, p a = false := by
  induction l with
  | nil => simp [findLastIdx]
  | cons a as ih =>
    rw [findLastIdx_cons]
    cases h : findLastIdx p as with
    | some j =>
      constructor
      · intro hc
        exact absurd hc (by simp)
      · intro hall
        exfalso
        have hnone : findLastIdx p as = none :=
          ih.mpr fun x hx => hall x (List.mem_cons_of_mem a hx)
        rw [h] at hnone
        exact Option.noConfusion hnone
    | none =>
      cases hp : p a with
      | true => simp [List.forall_mem_cons, hp]
      | false =>
        constructor
        · intro _ x hx
          rcases List.mem_cons.mp hx with rfl | hx'
          · exact hp
          · exact ih.mp h x hx'
        · intro _
          simp

lemma findLastIdx_some_spec {α : Type} (p : α → Bool) (l : List α) (idx : Nat)
    (h : findLastIdx p l = some idx) :
    ∃ a, l.get? idx = some a ∧ p a = true ∧
      ∀ j b, idx < j → l.get? j = some b → p b = false := by
  induction l generalizing idx with
  | nil => simp [findLastIdx] at h
  | cons a as ih =>
    rw [findLastIdx_cons] at h
    cases h' : findLastIdx p as with
    | some j =>
      rw [h'] at h
      simp only [Option.some.injEq] at h
      subst h
      obtain ⟨b, hb1, hb2, hb3⟩ := ih j h'
      refine ⟨b, by simpa using hb1, hb2, ?_⟩
      intro k c hk hkc
      cases k with
      | zero => omega
      | succ k' =>
        have hkc' : as.get? k' = some c := by simpa using hkc
        exact hb3 k' c (by omega) hkc'
    | none =>
      rw [h'] at h
      cases hp : p a with
      | false => simp [hp] at h
      | true =>
        simp only [hp, if_true] at h
        simp only [Option.some.injEq] at h
        subst h
        refine ⟨a, rfl, hp, ?_⟩
        intro j b hj hjb
        cases j with
        | zero => omega
        | succ j' =>
          have hjb' : as.get? j' = some b := by simpa using hjb
          have hall := (findLastIdx_none_iff p as).mp h'
          exact hall b (List.get?_mem hjb')

/-- C6: `handleRegenerate` is a no-op when the list has no assistant
message (and in particular when it is empty); otherwise it locates the last
assistant message, submits with the supplied checkpoint, decrements the
message-length ref, resets the first-token flag, and its optimistic
projection truncates the previous message list to exactly the prefix
strictly before that last assistant message. -/
theorem handleRegenerate_spec (ms : List Message) (isLoading : Bool)
    (prevLen : Nat) (ftr : Bool) (cp : Option Checkpoint) :
    ((∀ m ∈ ms, m.type ≠ .ai) →
      handleRegenerate (some ms) isLoading prevLen ftr cp =
        ⟨prevLen, ftr, none⟩) ∧
    ((∃ m ∈ ms, m.type = .ai) →
      ∃ idx, findLastIdx isAi ms = some idx ∧
        (handleRegenerate (some ms) isLoading prevLen ftr cp).prevMessageLength
          = prevLen - 1 ∧
        (handleRegenerate (some ms) isLoading prevLen ftr cp).firstTokenReceived
          = false ∧
        (∃ m, ms.get? idx = some m ∧ m.type = .ai) ∧
        (∀ j m', idx < j → ms.get? j = some m' → m'.type ≠ .ai) ∧
        (∃ sc, (handleRegenerate (some ms) isLoading prevLen ftr cp).submitted
            = some sc ∧ sc.checkpoint = cp ∧
          sc.optimistic (some ms) = ms.take idx ∧
          sc.optimistic none = [])) := by
  constructor
  · intro h
    have hnone : findLastIdx isAi ms = none :=
      (findLastIdx_none_iff isAi ms).mpr fun m hm =>
        (isAi_eq_false m).mpr (h m hm)
    simp only [handleRegenerate]
    by_cases hlen : ms.length = 0
    · rw [if_pos hlen]
    · rw [if_neg hlen, hnone]
  · rintro ⟨m0, hm0, hty0⟩
    have hne : findLastIdx isAi ms ≠ none := by
      intro hn
      have hf := (findLastIdx_none_iff isAi ms).mp hn m0 hm0
      rw [isAi_eq_false] at hf
      exact hf hty0
    cases hidx : findLastIdx isAi ms with
    | none => exact absurd hidx hne
    | some idx =>
      obtain ⟨b, hb1, hb2, hb3⟩ := findLastIdx_some_spec isAi ms idx hidx
      have hlen : ¬ms.length = 0 := by
        intro h0
        rw [List.length_eq_zero] at h0
        subst h0
        exact absurd hm0 (List.not_mem_nil m0)
      have hred : handleRegenerate (some ms) isLoading prevLen ftr cp =
          { prevMessageLength := prevLen - 1, firstTokenReceived := false,
            submitted := some (regenSubmitCall idx cp) } := by
        simp only [handleRegenerate]
        rw [if_neg hlen, hidx]
        rfl
      refine ⟨idx, rfl, by rw [hred], by rw [hred],
        ⟨b, hb1, (isAi_iff b).mp hb2⟩, ?_, ?_⟩
      · intro j m' hj hjm
        exact (isAi_eq_false m').mp (hb3 j m' hj hjm)
      · refine ⟨regenSubmitCall idx cp, ?_, rfl, rfl, rfl⟩
        rw [hred]

/-- Witness for C6 on a three-message transcript whose last assistant
message sits at index 1. -/
theorem handleRegenerate_spec_witness :
    (∃ m ∈ msgsRegen, m.type = .ai) ∧
    (∃ idx, findLastIdx isAi msgsRegen = some idx ∧
      (handleRegenerate (some msgsRegen) false 5 true
        (some cpW)).prevMessageLength = 4 ∧
      (handleRegenerate (some msgsRegen) false 5 true
        (some cpW)).firstTokenReceived = false ∧
      (∃ m, msgsRegen.get? idx = some m ∧ m.type = .ai) ∧
      (∀ j m', idx < j → msgsRegen.get? j = some m' → m'.type ≠ .ai) ∧
      (∃ sc, (handleRegenerate (some msgsRegen) false 5 true
          (some cpW)).submitted = some sc ∧ sc.checkpoint = some cpW ∧
        sc.optimistic (some msgsRegen) = msgsRegen.take idx ∧
        sc.optimistic none = [])) := by
  have hex : ∃ m ∈ msgsRegen, m.type = .ai := by decide
  exact ⟨hex, (handleRegenerate_spec msgsRegen false 5 true (some cpW)).2 hex⟩

/-- C9 counterexample: with the message list absent, the first-token effect
and the `chatStarted` computation (without a thread id) read `.length` on
`undefined` and throw instead of treating the list as empty — `some []`
behaves differently from `none`. -/
theorem firstTokenEffect_undefined_throws :
    firstTokenEffect 0 false none = .error "TypeError" ∧
    firstTokenEffect 0 false (some []) = .ok (0, false) ∧
    chatStarted none none = .error "TypeError" :=
  ⟨rfl, rfl, rfl⟩

/-- C9 amended: only the regenerate guard (`!messages?.length`) treats an
absent message list as "no messages"; `chatStarted` avoids the read only
when a thread id is set, while the first-token effect — and `chatStarted`
without a thread id — fail on an undefined list. -/
theorem undefined_messages_amended (prevLen : Nat) (ftr : Bool)
    (isLoading : Bool) (cp : Option Checkpoint) (tid : String) :
    tid ≠ "" →
    handleRegenerate none isLoading prevLen ftr cp = ⟨prevLen, ftr, none⟩ ∧
    chatStarted (some tid) none = .ok true ∧
    firstTokenEffect prevLen ftr none = .error "TypeError" ∧
    chatStarted none none = .error "TypeError" := by
  intro h
  refine ⟨rfl, ?_, rfl, rfl⟩
  unfold chatStarted
  have hf : strFalsy (some tid) = false := by
    unfold strFalsy
    simp [h]
  simp [hf]

/-- Witness for the amended C9 with thread id "t1". -/
theorem undefined_messages_amended_witness :
    ("t1" : String) ≠ "" ∧
    (handleRegenerate none false 2 true none = ⟨2, true, none⟩ ∧
      chatStarted (some "t1") none = .ok true ∧
      firstTokenEffect 2 true none = .error "TypeError" ∧
      chatStarted none none = .error "TypeError") :=
  ⟨by decide, undefined_messages_amended 2 true false none "t1" (by decide)⟩

end AgentChatUI
